import Mathlib

/-!
# Verification of the CPPpwn HTTP/REST engine

A shallow embedding of the HTTP message model, routing/middleware/static-file
dispatch engine, REST resource mapper and REST client of the CPPpwn
repository (files `HttpServer.cpp`, `HttpUtils.cpp`, `RESTServer.cpp`,
`RESTClient.cpp`), together with theorems settling the specification's
claims about them.

C++ `std::map<std::string, T>` is modelled by `Smap T`: an association list
kept sorted by key (so iteration order matches `std::map`'s lexicographic
order), where insertion replaces an existing binding for the same key.
Filesystem access performed by the static-file resolver is abstracted into
an explicit oracle structure so that "no filesystem access" is expressible
as independence of the result from the oracle.  Handler code that may throw
is modelled with `Except`.
-/

set_option autoImplicit false

/-- Lexicographic comparison of character lists, modelling
`std::string::operator<` (byte-wise lexicographic order; identical on the
ASCII strings this code compares). -/
def strLtb : List Char → List Char → Bool
  | [], [] => false
  | [], _ :: _ => true
  | _ :: _, [] => false
  | a :: as, b :: bs => if a < b then true else if b < a then false else strLtb as bs

/-- Embeds `std::string` `operator<`. -/
def strLt (a b : String) : Bool :=
  strLtb a.data b.data

/-- Ordered string-keyed map, modelling `std::map<std::string, T>`:
an association list kept sorted by key in `strLt` order. -/
abbrev Smap (α : Type) := List (String × α)

namespace Smap

variable {α : Type}

/-- Embeds `m[k] = v` of `std::map`: insert sorted, replacing an equal key. -/
def insert : Smap α → String → α → Smap α
  | [], k, v => [(k, v)]
  | (k', v') :: tl, k, v =>
    if strLt k k' then (k, v) :: (k', v') :: tl
    else if k = k' then (k, v) :: tl
    else (k', v') :: insert tl k v

/-- Embeds `m.find(k)` of `std::map`, as an `Option`. -/
def find? : Smap α → String → Option α
  | [], _ => none
  | (k', v') :: tl, k => if k' = k then some v' else find? tl k

/-- Embeds `m.count(k) > 0` of `std::map`. -/
def contains (m : Smap α) (k : String) : Bool :=
  (m.find? k).isSome

/-- Embeds `m.empty()` of `std::map`. -/
def isEmpty : Smap α → Bool
  | [] => true
  | _ :: _ => false

end Smap

/-- Model of C-locale `::tolower` as applied by the code via
`std::transform(..., ::tolower)`: maps `A`–`Z` to `a`–`z`, every other
character unchanged. -/
def ctolower (c : Char) : Char :=
  if 'A' ≤ c ∧ c ≤ 'Z' then Char.ofNat (c.toNat + 32) else c

/-- Embeds `std::transform(s.begin(), s.end(), s.begin(), ::tolower)`. -/
def strtolower (s : String) : String :=
  String.mk (s.data.map ctolower)

namespace cpppwn

/-- Embeds `HttpRequest` of `HttpServer.hpp`. -/
structure HttpRequest where
  method : String := ""
  path : String := ""
  http_version : String := ""
  headers : Smap String := []
  query_params : Smap String := []
  cookies : Smap String := []
  form_data : Smap String := []
  body : String := ""

/-- Embeds `HttpRequest::get_header` (HttpServer.cpp): lowercases the name and
looks it up, returning `""` when absent. -/
def HttpRequest.get_header (r : HttpRequest) (name : String) : String :=
  match r.headers.find? (strtolower name) with
  | some v => v
  | none => ""

/-- Embeds `HttpRequest::has_header` (HttpServer.cpp). -/
def HttpRequest.has_header (r : HttpRequest) (name : String) : Bool :=
  (r.headers.find? (strtolower name)).isSome

/-- Embeds `HttpResponse::get_status_message` (HttpServer.cpp): the fixed
code→text table, defaulting to `"Unknown"`. -/
def get_status_message (code : Int) : String :=
  let status_messages : List (Int × String) :=
    [(200, "OK"), (201, "Created"), (204, "No Content"),
     (301, "Moved Permanently"), (302, "Found"), (303, "See Other"),
     (304, "Not Modified"), (307, "Temporary Redirect"),
     (308, "Permanent Redirect"), (400, "Bad Request"),
     (401, "Unauthorized"), (403, "Forbidden"), (404, "Not Found"),
     (405, "Method Not Allowed"), (409, "Conflict"),
     (413, "Payload Too Large"), (415, "Unsupported Media Type"),
     (429, "Too Many Requests"), (500, "Internal Server Error"),
     (501, "Not Implemented"), (502, "Bad Gateway"),
     (503, "Service Unavailable")]
  (status_messages.lookup code).getD "Unknown"

/-- Embeds `HttpResponse` of `HttpServer.hpp` (server side). -/
structure HttpResponse where
  status_code : Int
  status_message : String
  headers : Smap String
  cookies : List String
  body : String

/-- Embeds `HttpResponse::HttpResponse(int code)` (HttpServer.cpp). -/
def HttpResponse.make (code : Int) : HttpResponse :=
  { status_code := code, status_message := get_status_message code,
    headers := [], cookies := [], body := "" }

/-- Embeds `HttpResponse::set_status` (HttpServer.cpp). -/
def HttpResponse.set_status (r : HttpResponse) (code : Int) : HttpResponse :=
  { r with status_code := code, status_message := get_status_message code }

/-- Embeds `HttpResponse::set_header` (HttpServer.cpp): stores the name verbatim. -/
def HttpResponse.set_header (r : HttpResponse) (name value : String) : HttpResponse :=
  { r with headers := r.headers.insert name value }

/-- Embeds `HttpResponse::set_body` (HttpServer.cpp): stores the body and
recomputes the `Content-Length` header from the body's byte size. -/
def HttpResponse.set_body (r : HttpResponse) (content : String) : HttpResponse :=
  let r := { r with body := content }
  r.set_header "Content-Length" (toString r.body.utf8ByteSize)

/-- Embeds `HttpResponse::set_json` (HttpServer.cpp). -/
def HttpResponse.set_json (r : HttpResponse) (json : String) : HttpResponse :=
  (r.set_header "Content-Type" "application/json").set_body json

/-- Embeds `HttpResponse::set_html` (HttpServer.cpp). -/
def HttpResponse.set_html (r : HttpResponse) (html : String) : HttpResponse :=
  (r.set_header "Content-Type" "text/html; charset=utf-8").set_body html

end cpppwn

/-- Embeds `HttpResponse` of `HttpUtils.hpp` (client side, global namespace in the
C++ sources).  Same data as the server-side response, but it additionally
has `ok`/`get_header`/`has_header` accessors. -/
structure HttpResponse where
  status_code : Int
  status_message : String
  headers : Smap String
  cookies : List String
  body : String

/-- Embeds `HttpResponse::HttpResponse(int code)` (HttpUtils.cpp). -/
def HttpResponse.make (code : Int) : HttpResponse :=
  { status_code := code, status_message := cpppwn.get_status_message code,
    headers := [], cookies := [], body := "" }

/-- Embeds `HttpResponse::set_status` (HttpUtils.cpp). -/
def HttpResponse.set_status (r : HttpResponse) (code : Int) : HttpResponse :=
  { r with status_code := code, status_message := cpppwn.get_status_message code }

/-- Embeds `HttpResponse::set_header` (HttpUtils.cpp): stores the name verbatim. -/
def HttpResponse.set_header (r : HttpResponse) (name value : String) : HttpResponse :=
  { r with headers := r.headers.insert name value }

/-- Embeds `HttpResponse::ok` (HttpUtils.cpp): `status_code >= 200 && status_code < 300`. -/
def HttpResponse.ok (r : HttpResponse) : Bool :=
  200 ≤ r.status_code ∧ r.status_code < 300

/-- Embeds `HttpResponse::get_header` (HttpUtils.cpp): lowercases the lookup key
before searching the headers map, returning `""` when absent. -/
def HttpResponse.get_header (r : HttpResponse) (key : String) : String :=
  match r.headers.find? (strtolower key) with
  | some v => v
  | none => ""

/-- Embeds `HttpResponse::has_header` (HttpUtils.cpp): lowercases the lookup key. -/
def HttpResponse.has_header (r : HttpResponse) (key : String) : Bool :=
  (r.headers.find? (strtolower key)).isSome

/-- Embeds `HttpResponse::set_body` (HttpUtils.cpp): stores the body and
recomputes the `Content-Length` header from the body's byte size. -/
def HttpResponse.set_body (r : HttpResponse) (content : String) : HttpResponse :=
  let r := { r with body := content }
  r.set_header "Content-Length" (toString r.body.utf8ByteSize)

/-- Embeds `HttpResponse::set_json` (HttpUtils.cpp). -/
def HttpResponse.set_json (r : HttpResponse) (json : String) : HttpResponse :=
  (r.set_header "Content-Type" "application/json").set_body json

/-- Tests whether `pat` occurs as a contiguous run inside `cs`, modelling
`s.find(pat) != std::string::npos`. -/
def hasInfix (pat : List Char) : List Char → Bool
  | [] => pat.isPrefixOf []
  | c :: tl => pat.isPrefixOf (c :: tl) || hasInfix pat tl

/-- Embeds `relative_path.find("..") != std::string::npos` (HttpServer.cpp,
the directory-traversal check). -/
def hasDotDot (s : String) : Bool :=
  hasInfix ['.', '.'] s.data

/-- Splits on a delimiter keeping every (possibly empty) segment; the result
always has one more segment than there are delimiters. -/
def splitKeep (delim : Char) (acc : List Char) : List Char → List (List Char)
  | [] => [acc]
  | c :: tl =>
    if c = delim then acc :: splitKeep delim [] tl
    else splitKeep delim (acc ++ [c]) tl

/-- Embeds the `std::getline(stream, pair, delim)` loop used by
`parse_query_string` and `parse_cookies` (HttpServer.cpp): like splitting on
the delimiter, except that an empty input yields no segment at all and a
trailing delimiter does not yield a final empty segment (`getline` fails
once it extracts nothing at end of stream). -/
def getlineSplit (delim : Char) (cs : List Char) : List (List Char) :=
  if cs = [] then []
  else
    let parts := splitKeep delim [] cs
    if parts.getLast? = some [] then parts.dropLast else parts

/-- Value of a hexadecimal digit character (0 for non-digits). -/
def hexVal (c : Char) : Nat :=
  if '0' ≤ c ∧ c ≤ '9' then c.toNat - 48
  else if 'a' ≤ c ∧ c ≤ 'f' then c.toNat - 87
  else if 'A' ≤ c ∧ c ≤ 'F' then c.toNat - 55
  else 0

/-- Modelled from the spec: `url_decode` is declared in `Helpers.hpp`, which
is not among the provided sources; §4.1 specifies the decoder as
percent-decoding (`%XX`) with `+`→space translation, character-by-character
otherwise. -/
def url_decode_chars : List Char → List Char
  | [] => []
  | '%' :: h1 :: h2 :: rest => Char.ofNat (16 * hexVal h1 + hexVal h2) :: url_decode_chars rest
  | '+' :: rest => ' ' :: url_decode_chars rest
  | c :: rest => c :: url_decode_chars rest

/-- Modelled from the spec: `url_decode` from the absent `Helpers.hpp`. -/
def url_decode (s : String) : String :=
  String.mk (url_decode_chars s.data)

namespace cpppwn

/-- Embeds one iteration of the `parse_query_string` loop (HttpServer.cpp):
split the pair on its first `=`; decode key and value; a pair without `=`
maps its decoded self to the empty string. -/
def query_pair_step (params : Smap String) (pair : List Char) : Smap String :=
  match pair.dropWhile (fun c => c ≠ '=') with
  | [] => params.insert (url_decode (String.mk pair)) ""
  | _ :: v =>
    params.insert (url_decode (String.mk (pair.takeWhile (fun c => c ≠ '=')))) (url_decode (String.mk v))

/-- Embeds `parse_query_string` (HttpServer.cpp): `getline`-split the query
on `&` and fold the pairs into the parameter map. -/
def parse_query_string (query : String) : Smap String :=
  (getlineSplit '&' query.data).foldl query_pair_step []

/-- Follows the words of the claim/spec (§3): "pairs are split on `&`, each
pair is split on its first `=`, both sides are percent-decoded, and a bare
pair with no `=` maps its decoded key to the empty string" — with "split"
read as plain delimiter splitting that keeps empty segments.  Kept separate
from `parse_query_string` (the source embedding) for comparison. -/
def spec_parse_query_string (query : String) : Smap String :=
  (splitKeep '&' [] query.data).foldl query_pair_step []

/-- Embeds `RESTException` (declared in the absent `RESTClient.hpp`; its
three data members are determined by its uses in RESTClient.cpp —
constructed from a response's status code, status message and body — and
RESTServer.cpp — read back as `status_code`, `status_message`, `what()`). -/
structure RESTException where
  status_code : Int
  status_message : String
  message : String
  deriving DecidableEq

/-- Exceptions a user handler can throw: a `RESTException`, or any other
`std::exception` carrying only its `what()` string. -/
inductive HandlerErr where
  | restExc (e : RESTException)
  | stdExc (what : String)
  deriving DecidableEq

/-- Embeds `RouteHandler` (HttpServer.hpp); the `Except` models that a
handler may throw, which propagates to the catch in `handle_client`. -/
abbrev RouteHandler := HttpRequest → Except HandlerErr HttpResponse

/-- Embeds `Middleware` (HttpServer.hpp): returns the continue/stop flag and
the response as mutated. -/
abbrev Middleware := HttpRequest → HttpResponse → Bool × HttpResponse

/-- Oracle for the filesystem operations of `handle_static_file`
(`std::filesystem` and `std::ifstream`, external collaborators per §1):
path joining, directory/existence/regular-file tests, and reading a file
(`none` models a file that cannot be opened). -/
structure FileSystem where
  join : String → String → String
  is_directory : String → Bool
  fs_exists : String → Bool
  is_regular_file : String → Bool
  read_file : String → Option String

/-- Embeds `fs::path::extension().string()`: the final `.`-suffix of the
final path component (empty for dotfiles, `.` and `..`). -/
def pathExtension (p : String) : String :=
  let fname := (p.data.reverse.takeWhile (fun c => c ≠ '/')).reverse
  if fname = ['.'] ∨ fname = ['.', '.'] then ""
  else
    let revAfter := fname.reverse.takeWhile (fun c => c ≠ '.')
    if revAfter.length = fname.length then ""
    else if revAfter.length + 1 = fname.length then ""
    else String.mk ('.' :: revAfter.reverse)

/-- Embeds `get_mime_type` (HttpServer.cpp): lowercased-extension lookup in
the fixed MIME table, defaulting to `application/octet-stream`. -/
def get_mime_type (path : String) : String :=
  let mime_types : List (String × String) :=
    [(".html", "text/html"), (".htm", "text/html"), (".css", "text/css"),
     (".js", "application/javascript"), (".json", "application/json"),
     (".xml", "application/xml"), (".txt", "text/plain"),
     (".jpg", "image/jpeg"), (".jpeg", "image/jpeg"), (".png", "image/png"),
     (".gif", "image/gif"), (".svg", "image/svg+xml"),
     (".ico", "image/x-icon"), (".pdf", "application/pdf"),
     (".zip", "application/zip"), (".mp3", "audio/mpeg"),
     (".mp4", "video/mp4"), (".woff", "font/woff"),
     (".woff2", "font/woff2"), (".ttf", "font/ttf"),
     (".webp", "image/webp")]
  (mime_types.lookup (strtolower (pathExtension path))).getD "application/octet-stream"

/-- Embeds the `for(const auto& [prefix, directory] : static_routes_)` loop
of `HttpServer::handle_static_file` (HttpServer.cpp), acting on the single
`response` object created before the loop. -/
def static_loop (fs : FileSystem) (response : HttpResponse) (path : String) :
    List (String × String) → HttpResponse
  | [] => (response.set_status 404).set_body "Not Found"
  | (pre, directory) :: rest =>
    if pre.data.isPrefixOf path.data then
      let relative_path := String.mk (path.data.drop pre.data.length)
      if hasDotDot relative_path then
        (response.set_status 403).set_body "Forbidden"
      else
        let file_path := fs.join directory relative_path
        let file_path := if fs.is_directory file_path then fs.join file_path "index.html" else file_path
        if fs.fs_exists file_path = false ∨ fs.is_regular_file file_path = false then
          (response.set_status 404).set_body "Not Found"
        else
          match fs.read_file file_path with
          | none => (response.set_status 500).set_body "Internal Server Error"
          | some content =>
            ((response.set_status 200).set_header "Content-Type"
              (get_mime_type file_path)).set_body content
    else static_loop fs response path rest

/-- Embeds `HttpServer::handle_static_file` (HttpServer.cpp). -/
def handle_static_file (fs : FileSystem) (static_routes_ : Smap String)
    (request : HttpRequest) : HttpResponse :=
  static_loop fs (HttpResponse.make 200) request.path static_routes_

/-- First entry of the static-route table whose URL prefix is a literal
string prefix of the path, in table iteration order — the entry
`handle_static_file`'s loop acts on. -/
def first_static_match : Smap String → String → Option (String × String)
  | [], _ => none
  | (pre, directory) :: rest, path =>
    if pre.data.isPrefixOf path.data then some (pre, directory)
    else first_static_match rest path

/-- Embeds the table/flag state of `HttpServer` (HttpServer.hpp):
route table, middleware list, static-route table, the running flag, and
whether the listening `Server` endpoint has been closed. -/
structure HttpServer where
  routes_ : Smap RouteHandler := []
  middlewares_ : List Middleware := []
  static_routes_ : Smap String := []
  running_ : Bool := false
  server_closed : Bool := false

/-- Embeds `HttpServer::route` (HttpServer.cpp): keyed `"METHOD path"`. -/
def HttpServer.route (srv : HttpServer) (method path : String)
    (handler : RouteHandler) : HttpServer :=
  { srv with routes_ := srv.routes_.insert (method ++ " " ++ path) handler }

/-- Embeds `HttpServer::get` (HttpServer.cpp). -/
def HttpServer.get (srv : HttpServer) (path : String) (handler : RouteHandler) : HttpServer :=
  srv.route "GET" path handler

/-- Embeds `HttpServer::post` (HttpServer.cpp). -/
def HttpServer.post (srv : HttpServer) (path : String) (handler : RouteHandler) : HttpServer :=
  srv.route "POST" path handler

/-- Embeds `HttpServer::put` (HttpServer.cpp). -/
def HttpServer.put (srv : HttpServer) (path : String) (handler : RouteHandler) : HttpServer :=
  srv.route "PUT" path handler

/-- Embeds `HttpServer::del` (HttpServer.cpp). -/
def HttpServer.del (srv : HttpServer) (path : String) (handler : RouteHandler) : HttpServer :=
  srv.route "DELETE" path handler

/-- Embeds `HttpServer::patch` (HttpServer.cpp). -/
def HttpServer.patch (srv : HttpServer) (path : String) (handler : RouteHandler) : HttpServer :=
  srv.route "PATCH" path handler

/-- Embeds `HttpServer::use_middleware` (HttpServer.cpp). -/
def HttpServer.use_middleware (srv : HttpServer) (mw : Middleware) : HttpServer :=
  { srv with middlewares_ := srv.middlewares_ ++ [mw] }

/-- Embeds `HttpServer::serve_static` (HttpServer.cpp). -/
def HttpServer.serve_static (srv : HttpServer) (pre directory : String) : HttpServer :=
  { srv with static_routes_ := srv.static_routes_.insert pre directory }

/-- Embeds the middleware loop of `HttpServer::handle_client`
(HttpServer.cpp): run middlewares front to back over the mutable response,
breaking as soon as one returns `false`; result is the final
`should_continue` flag and the response as mutated so far. -/
def runMiddlewares : List Middleware → HttpRequest → HttpResponse → Bool × HttpResponse
  | [], _, response => (true, response)
  | mw :: rest, request, response =>
    let step := mw request response
    if step.1 then runMiddlewares rest request step.2 else (false, step.2)

/-- Embeds the response computation of `HttpServer::handle_client`
(HttpServer.cpp, after parsing and before sending): middleware pipeline,
exact-match route lookup, static files, the `GET /404` fallback (taken only
when the route table is non-empty), and the built-in 404 HTML page.  A
handler exception propagates as an `Except` error to the catch at the
connection boundary. -/
def handle_client_response (fs : FileSystem) (srv : HttpServer)
    (request : HttpRequest) : Except HandlerErr HttpResponse :=
  let response := HttpResponse.make 200
  let mres := runMiddlewares srv.middlewares_ request response
  if mres.1 then
    let route_key := request.method ++ " " ++ request.path
    match srv.routes_.find? route_key with
    | some handler => handler request
    | none =>
      let response := handle_static_file fs srv.static_routes_ request
      if response.status_code = 404 ∧ srv.routes_.isEmpty = false then
        match srv.routes_.find? "GET /404" with
        | some handler => handler request
        | none =>
          .ok ((response.set_status 404).set_html
            "<html><body><h1>404 Not Found</h1></body></html>")
      else .ok response
  else .ok mres.2

/-- Embeds `HttpServer::start` (HttpServer.cpp): throws when already
running, otherwise sets the flag and enters the accept loop (abstracted as
an arbitrary state transformer, so that "the error is raised before the
loop is entered" is expressible as independence from it). -/
def HttpServer.start (accept_loop : HttpServer → HttpServer) (srv : HttpServer) :
    Except String HttpServer :=
  if srv.running_ then .error "Server is already running"
  else .ok (accept_loop { srv with running_ := true })

/-- Embeds `HttpServer::stop` (HttpServer.cpp): only when running, clear the
flag and close the listening endpoint. -/
def HttpServer.stop (srv : HttpServer) : HttpServer :=
  if srv.running_ then { srv with running_ := false, server_closed := true }
  else srv

/-- Embeds `JsonHandler` of the REST layer (declared in the absent
`RESTServer.hpp`; its signature is determined by RESTServer.cpp: invoked on
a request, returning a response, possibly throwing). -/
abbrev JsonHandler := HttpRequest → Except HandlerErr HttpResponse

/-- Embeds `ErrorHandler` of the REST layer: invoked with the request and
the caught exception (modelled by its `what()` string). -/
abbrev ErrorHandler := HttpRequest → String → HttpResponse

/-- Modelled from the spec: the defaulted `data` argument of
`RESTServer::json_response` is declared in the absent `RESTServer.hpp`;
`json_response(204)` in RESTServer.cpp compiles against that default, and
§4.6's error envelope passes no pairs there, so the default is the empty
map. -/
def json_response_default_data : Smap String := []

/-- Embeds `RESTServer::json_response` (RESTServer.cpp): flat JSON object
built by literal string concatenation over the map in its iteration order,
wrapped with `set_json` on a response of the given status. -/
def json_response (status_code : Int) (data : Smap String) : HttpResponse :=
  let state := data.foldl
    (fun (acc : String × Bool) kv =>
      ((if acc.2 then acc.1 else acc.1 ++ ",")
        ++ "\"" ++ kv.1 ++ "\":\"" ++ kv.2 ++ "\"", false))
    ("\x7b", true)
  let json := state.1 ++ "\x7d"
  (HttpResponse.make status_code).set_json json

/-- Embeds the default 404 handler installed by
`RESTServer::setup_error_handlers` (RESTServer.cpp). -/
def default_not_found_handler : JsonHandler := fun _ =>
  .ok (json_response 404
    [("error", "Not Found"), ("message", "The requested resource was not found")])

/-- Embeds the default 500 handler installed by
`RESTServer::setup_error_handlers` (RESTServer.cpp). -/
def default_error_handler : ErrorHandler := fun _ what =>
  json_response 500 [("error", "Internal Server Error"), ("message", what)]

/-- Embeds `RESTServer::handle_json_request` (RESTServer.cpp): run the
handler; a `RESTException` becomes a JSON error envelope with the
exception's status; any other exception goes to the installed error
handler, or to a default 500 envelope. -/
def handle_json_request (error_handler_ : Option ErrorHandler)
    (handler : JsonHandler) (req : HttpRequest) : HttpResponse :=
  match handler req with
  | .ok r => r
  | .error (.restExc e) =>
    json_response e.status_code [("error", e.status_message), ("message", e.message)]
  | .error (.stdExc what) =>
    match error_handler_ with
    | some eh => eh req what
    | none => json_response 500 [("error", "Internal Server Error"), ("message", what)]

/-- Embeds the wrapping done by `RESTServer::get/post/put/del/patch`
(RESTServer.cpp): the registered route handler runs the JSON handler under
`handle_json_request` and never throws.  The C++ lambda reads
`error_handler_` through `this` at call time; it is captured here at
registration time, which agrees whenever `on_error` is not called after
registration (the constructor installs it before any registration). -/
def wrap_json (error_handler_ : Option ErrorHandler) (handler : JsonHandler) : RouteHandler :=
  fun req => .ok (handle_json_request error_handler_ handler req)

/-- Embeds `RESTServer` (RESTServer.hpp is absent; members are determined
by RESTServer.cpp: the wrapped `HttpServer`, the not-found handler and the
error handler, both unset until installed). -/
structure RESTServer where
  server_ : HttpServer := {}
  not_found_handler_ : Option JsonHandler := none
  error_handler_ : Option ErrorHandler := none

/-- Embeds `RESTServer::get` (RESTServer.cpp). -/
def RESTServer.get (s : RESTServer) (path : String) (handler : JsonHandler) : RESTServer :=
  { s with server_ := s.server_.get path (wrap_json s.error_handler_ handler) }

/-- Embeds `RESTServer::post` (RESTServer.cpp). -/
def RESTServer.post (s : RESTServer) (path : String) (handler : JsonHandler) : RESTServer :=
  { s with server_ := s.server_.post path (wrap_json s.error_handler_ handler) }

/-- Embeds `RESTServer::put` (RESTServer.cpp). -/
def RESTServer.put (s : RESTServer) (path : String) (handler : JsonHandler) : RESTServer :=
  { s with server_ := s.server_.put path (wrap_json s.error_handler_ handler) }

/-- Embeds `RESTServer::del` (RESTServer.cpp). -/
def RESTServer.del (s : RESTServer) (path : String) (handler : JsonHandler) : RESTServer :=
  { s with server_ := s.server_.del path (wrap_json s.error_handler_ handler) }

/-- Embeds `RESTServer::patch` (RESTServer.cpp). -/
def RESTServer.patch (s : RESTServer) (path : String) (handler : JsonHandler) : RESTServer :=
  { s with server_ := s.server_.patch path (wrap_json s.error_handler_ handler) }

/-- Embeds `RESTServer::on_not_found` (RESTServer.cpp): record the handler
and register it at `GET /404` on the underlying server, unwrapped.  The C++
route lambda reads `not_found_handler_` through `this` at call time; since
every `on_not_found` call re-registers the route, registering the handler
value directly is observationally the same. -/
def RESTServer.on_not_found (s : RESTServer) (handler : JsonHandler) : RESTServer :=
  let s := { s with not_found_handler_ := some handler }
  { s with server_ := s.server_.get "/404" (fun req => handler req) }

/-- Embeds `RESTServer::on_error` (RESTServer.cpp). -/
def RESTServer.on_error (s : RESTServer) (handler : ErrorHandler) : RESTServer :=
  { s with error_handler_ := some handler }

/-- Embeds `RESTServer::setup_error_handlers` (RESTServer.cpp). -/
def RESTServer.setup_error_handlers (s : RESTServer) : RESTServer :=
  (s.on_not_found default_not_found_handler).on_error default_error_handler

/-- Embeds the `RESTServer` constructor (RESTServer.cpp): fresh server with
the default error handlers installed. -/
def RESTServer.make : RESTServer :=
  RESTServer.setup_error_handlers {}

/-- Embeds `RESTServer::extract_id_from_path` (RESTServer.cpp): strip the
literal `"/resource/"` string prefix, else return `""`. -/
def extract_id_from_path (path resource : String) : String :=
  let pre := "/" ++ resource ++ "/"
  if pre.data.isPrefixOf path.data then String.mk (path.data.drop pre.data.length)
  else ""

/-- Embeds `ResourceHandlers` (declared in the absent `RESTServer.hpp`; the
six optional handler fields and their signatures are determined by their
uses in `RESTServer::resource` and by §4.6: `destroy` returns nothing). -/
structure ResourceHandlers where
  list : Option JsonHandler := none
  create : Option JsonHandler := none
  retrieve : Option (HttpRequest → String → Except HandlerErr HttpResponse) := none
  update : Option (HttpRequest → String → Except HandlerErr HttpResponse) := none
  partial_update : Option (HttpRequest → String → Except HandlerErr HttpResponse) := none
  destroy : Option (HttpRequest → String → Except HandlerErr Unit) := none

/-- Embeds the JSON handler `RESTServer::resource` builds for `destroy`
(RESTServer.cpp): run the destroy handler on the extracted id, then answer
`json_response(204)`; an exception from the handler propagates. -/
def destroy_json_handler (name : String)
    (h : HttpRequest → String → Except HandlerErr Unit) : JsonHandler :=
  fun req =>
    match h req (extract_id_from_path req.path name) with
    | .ok _ => .ok (json_response 204 json_response_default_data)
    | .error e => .error e

/-- Embeds the route handler registered for `DELETE /name/:id`: the destroy
JSON handler behind `handle_json_request` (via `RESTServer::del`). -/
def destroy_route_handler (error_handler_ : Option ErrorHandler) (name : String)
    (h : HttpRequest → String → Except HandlerErr Unit) : RouteHandler :=
  wrap_json error_handler_ (destroy_json_handler name h)

/-- Embeds `RESTServer::resource` (RESTServer.cpp): register the supplied
handlers on the conventional routes, the `:id` routes under the literal
path `"/name/:id"`, with ids extracted by literal-prefix stripping. -/
def RESTServer.resource (s : RESTServer) (name : String)
    (handlers : ResourceHandlers) : RESTServer :=
  let base_path := "/" ++ name
  let id_path := base_path ++ "/:id"
  let s := match handlers.list with
    | some h => s.get base_path (fun req => h req)
    | none => s
  let s := match handlers.create with
    | some h => s.post base_path (fun req => h req)
    | none => s
  let s := match handlers.retrieve with
    | some h => s.get id_path (fun req => h req (extract_id_from_path req.path name))
    | none => s
  let s := match handlers.update with
    | some h => s.put id_path (fun req => h req (extract_id_from_path req.path name))
    | none => s
  let s := match handlers.partial_update with
    | some h => s.patch id_path (fun req => h req (extract_id_from_path req.path name))
    | none => s
  match handlers.destroy with
  | some h => s.del id_path (destroy_json_handler name h)
  | none => s

end cpppwn

/-- Embeds `HttpHeaders` (HttpUtils.hpp, a string→string map). -/
abbrev HttpHeaders := Smap String

/-- Embeds `AuthType` (declared in the absent `RESTClient.hpp`; its four
alternatives None/Bearer/Basic/ApiKey are determined by their uses in
RESTClient.cpp). -/
inductive AuthType where
  | noAuth
  | bearer
  | basic
  | apiKey
  deriving DecidableEq

/-- Embeds the data members of `RESTClient` (RESTClient.hpp is absent; the
members are determined by their uses in RESTClient.cpp). -/
structure RESTClient where
  base_url_ : String := ""
  default_headers_ : HttpHeaders := []
  auth_type_ : AuthType := .noAuth
  auth_token_ : String := ""
  auth_username_ : String := ""
  auth_password_ : String := ""
  api_key_ : String := ""
  api_key_header_ : String := ""

/-- Character table for base64 encoding. -/
def base64_table : List Char :=
  "ABCDEFGHIJKLMNOPQRSTUVWXYZabcdefghijklmnopqrstuvwxyz0123456789+/".data

/-- Encodes byte triples into base64 characters with `=` padding. -/
def base64_chunks : List Nat → List Char
  | [] => []
  | [b1] =>
    [base64_table.getD (b1 / 4) 'A', base64_table.getD (b1 % 4 * 16) 'A', '=', '=']
  | [b1, b2] =>
    [base64_table.getD (b1 / 4) 'A', base64_table.getD (b1 % 4 * 16 + b2 / 16) 'A',
     base64_table.getD (b2 % 16 * 4) 'A', '=']
  | b1 :: b2 :: b3 :: rest =>
    base64_table.getD (b1 / 4) 'A' :: base64_table.getD (b1 % 4 * 16 + b2 / 16) 'A'
      :: base64_table.getD (b2 % 16 * 4 + b3 / 64) 'A' :: base64_table.getD (b3 % 64) 'A'
      :: base64_chunks rest

/-- Modelled from the spec: `base64_encode` is declared in the absent
`Helpers.hpp`; §4.7 specifies Basic authentication as "base64 of
`user:pass`", modelled as RFC 4648 base64 of the UTF-8 bytes. -/
def base64_encode (s : String) : String :=
  String.mk (base64_chunks (s.toUTF8.toList.map UInt8.toNat))

/-- Embeds `RESTClient::build_headers` (RESTClient.cpp): defaults, then the
authentication header for the configured mode, then per-call headers
overlaid last. -/
def RESTClient.build_headers (c : RESTClient) (additional : HttpHeaders) : HttpHeaders :=
  let headers := c.default_headers_
  let headers := match c.auth_type_ with
    | .bearer => headers.insert "Authorization" ("Bearer " ++ c.auth_token_)
    | .basic =>
      headers.insert "Authorization"
        ("Basic " ++ base64_encode (c.auth_username_ ++ ":" ++ c.auth_password_))
    | .apiKey => headers.insert c.api_key_header_ c.api_key_
    | .noAuth => headers
  additional.foldl (fun h kv => h.insert kv.1 kv.2) headers

/-- Embeds `RESTClient::build_url` (RESTClient.cpp): base URL plus the
endpoint, inserting a `/` when the endpoint does not start with one. -/
def RESTClient.build_url (c : RESTClient) (endpoint : String) : String :=
  if endpoint = "" ∨ endpoint.data.head? ≠ some '/' then c.base_url_ ++ "/" ++ endpoint
  else c.base_url_ ++ endpoint

/-- Oracle for the underlying `HttpClient` (its implementation file is not
among the provided sources; per §6 it is a transport consumer): the
response the wire would deliver for each performed call. -/
structure HttpClient where
  request : String → String → HttpHeaders → String → HttpResponse
  get : String → HttpHeaders → HttpResponse
  del : String → HttpHeaders → HttpResponse

/-- Embeds `RESTClient::request_json` (RESTClient.cpp): build headers (with
`Content-Type: application/json`) and URL, perform the request, throw a
`RESTException` carrying the response's status code, status message and
body when not 2xx, else return the body. -/
def RESTClient.request_json (client_ : HttpClient) (c : RESTClient)
    (method endpoint json_body : String) (headers : HttpHeaders) :
    Except cpppwn.RESTException String :=
  let full_headers := (c.build_headers headers).insert "Content-Type" "application/json"
  let url := c.build_url endpoint
  let response := client_.request method url full_headers json_body
  if response.ok then .ok response.body
  else .error ⟨response.status_code, response.status_message, response.body⟩

/-- Embeds `RESTClient::get` (RESTClient.cpp). -/
def RESTClient.get (client_ : HttpClient) (c : RESTClient)
    (endpoint : String) (headers : HttpHeaders) : Except cpppwn.RESTException String :=
  let full_headers := c.build_headers headers
  let url := c.build_url endpoint
  let response := client_.get url full_headers
  if response.ok then .ok response.body
  else .error ⟨response.status_code, response.status_message, response.body⟩

/-- Embeds `RESTClient::post` (RESTClient.cpp). -/
def RESTClient.post (client_ : HttpClient) (c : RESTClient)
    (endpoint json_body : String) (headers : HttpHeaders) : Except cpppwn.RESTException String :=
  c.request_json client_ "POST" endpoint json_body headers

/-- Embeds `RESTClient::put` (RESTClient.cpp). -/
def RESTClient.put (client_ : HttpClient) (c : RESTClient)
    (endpoint json_body : String) (headers : HttpHeaders) : Except cpppwn.RESTException String :=
  c.request_json client_ "PUT" endpoint json_body headers

/-- Embeds `RESTClient::patch` (RESTClient.cpp). -/
def RESTClient.patch (client_ : HttpClient) (c : RESTClient)
    (endpoint json_body : String) (headers : HttpHeaders) : Except cpppwn.RESTException String :=
  c.request_json client_ "PATCH" endpoint json_body headers

/-- Embeds `RESTClient::del` (RESTClient.cpp). -/
def RESTClient.del (client_ : HttpClient) (c : RESTClient)
    (endpoint : String) (headers : HttpHeaders) : Except cpppwn.RESTException String :=
  let full_headers := c.build_headers headers
  let url := c.build_url endpoint
  let response := client_.del url full_headers
  if response.ok then .ok response.body
  else .error ⟨response.status_code, response.status_message, response.body⟩

/-- Failure modes of `std::stoi`. -/
inductive StoiErr where
  | invalidArgument
  | outOfRange
  deriving DecidableEq

/-- Embeds `std::stoi`: skip leading whitespace, optional sign, then decimal
digits; `invalid_argument` when no digit follows, `out_of_range` when the
value does not fit in a 32-bit `int`. -/
def stoi (s : String) : Except StoiErr Int :=
  let cs := s.data.dropWhile (fun c =>
    c = ' ' ∨ c = '\t' ∨ c = '\n' ∨ c = '\x0b' ∨ c = '\x0c' ∨ c = '\r')
  let signed : Int × List Char :=
    match cs with
    | '-' :: tl => (-1, tl)
    | '+' :: tl => (1, tl)
    | _ => (1, cs)
  let digits := signed.2.takeWhile (fun c => '0' ≤ c ∧ c ≤ '9')
  if digits = [] then .error .invalidArgument
  else
    let v : Int := signed.1 * (digits.foldl (fun acc c => 10 * acc + (c.toNat - 48)) 0 : Nat)
    if v < -2147483648 ∨ 2147483647 < v then .error .outOfRange
    else .ok v

/-- Embeds `PaginatedResponse` (declared in the absent `RESTClient.hpp`;
fields determined by `RESTClient::get_paginated`, with the optional total
modelled as an `Option` per §4.7's "optional `x-total-count`"). -/
structure PaginatedResponse where
  data : String
  page : Int
  per_page : Int
  total : Option Int := none
  deriving DecidableEq

/-- Exceptions `RESTClient::get_paginated` can raise: the `RESTException`
for a non-2xx response, or the `std::stoi` failure on a malformed
`x-total-count` header. -/
inductive PagErr where
  | rest (e : cpppwn.RESTException)
  | stoiFail (e : StoiErr)
  deriving DecidableEq

/-- Embeds `RESTClient::get_paginated` (RESTClient.cpp): append
`page`/`per_page` query parameters, perform the GET, throw on non-2xx, then
read an optional `x-total-count` header through `std::stoi` into the
result envelope. -/
def RESTClient.get_paginated (client_ : HttpClient) (c : RESTClient)
    (endpoint : String) (page per_page : Int) (headers : HttpHeaders) :
    Except PagErr PaginatedResponse :=
  let url := endpoint ++ (if endpoint.data.contains '?' then "&" else "?")
  let url := url ++ "page=" ++ toString page ++ "&per_page=" ++ toString per_page
  let full_headers := c.build_headers headers
  let response := client_.get (c.build_url url) full_headers
  if response.ok then
    if response.headers.contains "x-total-count" then
      match stoi ((response.headers.find? "x-total-count").getD "") with
      | .ok n => .ok { data := response.body, page := page, per_page := per_page, total := some n }
      | .error e => .error (.stoiFail e)
    else .ok { data := response.body, page := page, per_page := per_page, total := none }
  else .error (.rest ⟨response.status_code, response.status_message, response.body⟩)

/-!
## Theorems
-/

theorem strLtb_irrefl (l : List Char) : strLtb l l = false := by
  induction l with
  | nil => rfl
  | cons hd tl ih => simp [strLtb, lt_irrefl, ih]

theorem strLt_irrefl (k : String) : strLt k k = false :=
  strLtb_irrefl k.data

theorem Smap.find?_insert_self {α : Type} (m : Smap α) (k : String) (v : α) :
    (m.insert k v).find? k = some v := by
  induction m with
  | nil => simp [insert, find?]
  | cons hd tl ih =>
    obtain ⟨k', v'⟩ := hd
    by_cases h1 : strLt k k' = true
    · simp [insert, find?, h1]
    · by_cases h2 : k = k'
      · simp [insert, find?, h1, h2, strLt_irrefl]
      · have hne : k' ≠ k := fun h => h2 h.symm
        simp [insert, find?, h1, h2, hne, ih]

theorem Smap.find?_insert_ne {α : Type} (m : Smap α) (k k' : String) (v : α)
    (h : k' ≠ k) : (m.insert k' v).find? k = m.find? k := by
  induction m with
  | nil => simp [insert, find?, h]
  | cons hd tl ih =>
    obtain ⟨k0, v0⟩ := hd
    by_cases h1 : strLt k' k0 = true
    · simp [insert, find?, h1, h]
    · by_cases h2 : k' = k0
      · subst h2
        simp [insert, find?, h1, h]
      · simp [insert, find?, h1, h2, ih]

theorem ctolower_ne_of_upper (c : Char) (h1 : 'A' ≤ c) (h2 : c ≤ 'Z') :
    ctolower c ≠ c := by
  unfold ctolower
  rw [if_pos ⟨h1, h2⟩]
  intro hEq
  have hz : c.val.toNat ≤ 90 := by
    have : c.toNat ≤ 90 := h2
    simpa [Char.toNat] using this
  have hv : (Char.ofNat (c.toNat + 32)).toNat = c.toNat + 32 := by
    simp [Char.ofNat, Nat.isValidChar, Char.toNat, Char.ofNatAux]
    split
    · rfl
    · omega
  rw [hEq] at hv
  omega

theorem map_ctolower_fix {l : List Char} (h : l.map ctolower = l) :
    ∀ c ∈ l, ctolower c = c := by
  induction l with
  | nil => simp
  | cons hd tl ih =>
    simp only [List.map_cons, List.cons.injEq] at h
    intro c hc
    rcases List.mem_cons.mp hc with hc | hc
    · exact hc ▸ h.1
    · exact ih h.2 c hc

/-- A string containing an uppercase ASCII letter is changed by `::tolower`. -/
theorem strtolower_ne_of_upper (s : String)
    (h : (s.data.any fun c => decide ('A' ≤ c ∧ c ≤ 'Z')) = true) :
    strtolower s ≠ s := by
  intro hEq
  have hdata : s.data.map ctolower = s.data := by
    have := congrArg String.data hEq
    simpa [strtolower] using this
  rcases List.any_eq_true.mp h with ⟨c, hc, hup⟩
  have hup' : 'A' ≤ c ∧ c ≤ 'Z' := of_decide_eq_true hup
  exact ctolower_ne_of_upper c hup'.1 hup'.2 (map_ctolower_fix hdata c hc)

/-- C6: after `set_body(s)` — on both the server-side (`HttpServer.cpp`) and
client-side (`HttpUtils.cpp`) `HttpResponse` — the headers map contains key
`"Content-Length"` whose value is the decimal string of `s`'s byte length,
whatever value that key held before; in particular `set_body("hello")`
yields `Content-Length: 5`. -/
theorem set_body_sets_content_length :
    (∀ (r : cpppwn.HttpResponse) (s : String),
      (r.set_body s).headers.find? "Content-Length"
        = some (toString s.utf8ByteSize)) ∧
    (∀ (r : HttpResponse) (s : String),
      (r.set_body s).headers.find? "Content-Length"
        = some (toString s.utf8ByteSize)) ∧
    ((cpppwn.HttpResponse.make 200).set_body "hello").headers.find? "Content-Length"
      = some "5" := by
  refine ⟨fun r s => ?_, fun r s => ?_, by rfl⟩
  · exact Smap.find?_insert_self r.headers "Content-Length" _
  · exact Smap.find?_insert_self r.headers "Content-Length" _

/-- C7: `HttpRequest::get_header` is case-insensitive — two header names
that agree after ASCII lowercasing are looked up identically on every
request, since the lookup key is lowercased (and `parse_request` stores
keys lowercased). -/
theorem get_header_case_insensitive (req : cpppwn.HttpRequest)
    (n1 n2 : String) (h : strtolower n1 = strtolower n2) :
    req.get_header n1 = req.get_header n2 := by
  unfold cpppwn.HttpRequest.get_header
  rw [h]

/-- Witness for C7 at a concrete parsed-style request:
`get_header "Content-Type"` equals `get_header "content-type"`. -/
theorem get_header_case_insensitive_witness :
    (strtolower "Content-Type" = strtolower "content-type") ∧
    ({ headers := [("content-type", "text/html")] } :
        cpppwn.HttpRequest).get_header "Content-Type"
      = ({ headers := [("content-type", "text/html")] } :
        cpppwn.HttpRequest).get_header "content-type" :=
  ⟨by rfl, get_header_case_insensitive
    { headers := [("content-type", "text/html")] }
    "Content-Type" "content-type" (by rfl)⟩

/-- Counterexample for C9 as stated: on a client-side response that already
holds a lowercased `"content-type"` entry, `set_header("Content-Type", …)`
followed by `get_header("Content-Type")` returns the stale old value, not
the empty string. -/
theorem set_header_get_header_stale_counterexample :
    (({ status_code := 200, status_message := "OK",
        headers := [("content-type", "text/plain")], cookies := [],
        body := "" } : HttpResponse).set_header
          "Content-Type" "application/json").get_header "Content-Type"
      = "text/plain" := by decide

/-- C9 (amended): on a client-side response whose headers do not already
contain the lowercased name, `set_header(name, value)` with a name holding
an uppercase ASCII letter stores the name verbatim, so `get_header` of the
name (or of any case-variant of it) still returns `""` and `has_header`
returns `false`: the two sides disagree on key normalization. -/
theorem set_header_invisible_to_get_header (r : HttpResponse)
    (name value v : String)
    (hup : (name.data.any fun c => decide ('A' ≤ c ∧ c ≤ 'Z')) = true)
    (habsent : r.headers.find? (strtolower name) = none)
    (hvar : strtolower v = strtolower name) :
    (r.set_header name value).get_header v = "" ∧
    (r.set_header name value).has_header name = false := by
  have hne : name ≠ strtolower name := fun h =>
    strtolower_ne_of_upper name hup h.symm
  have hfind : (r.headers.insert name value).find? (strtolower name) = none := by
    rw [Smap.find?_insert_ne r.headers (strtolower name) name value hne, habsent]
  constructor
  · unfold HttpResponse.get_header HttpResponse.set_header
    simp only [hvar, hfind]
  · unfold HttpResponse.has_header HttpResponse.set_header
    simp only [hfind, Option.isSome_none]

/-- Witness for C9 (amended) at a concrete input: a fresh response,
`set_header("Content-Type", "application/json")`, lookup under
`"content-type"`. -/
theorem set_header_invisible_to_get_header_witness :
    ((("Content-Type" : String).data.any
        fun c => decide ('A' ≤ c ∧ c ≤ 'Z')) = true) ∧
    ((HttpResponse.make 200).set_header
        "Content-Type" "application/json").get_header "content-type" = "" ∧
    ((HttpResponse.make 200).set_header
        "Content-Type" "application/json").has_header "Content-Type" = false :=
  ⟨by rfl,
   set_header_invisible_to_get_header (HttpResponse.make 200)
     "Content-Type" "application/json" "content-type"
     (by rfl) (by rfl) (by rfl)⟩

/-- C1: on a `RESTServer` with only `retrieve` registered for resource
`"users"`, `POST /users` falls through to the not-found outcome (the
default 404 JSON handler registered at `GET /404`) — that half of the claim
holds.  But `GET /users/42` takes the very same not-found path, for every
retrieve handler `rh` (the result does not depend on `rh`, so `rh` is never
invoked): route matching is exact-string on `"GET /users/:id"`, which
`"GET /users/42"` never equals.  The retrieve handler is reachable only at
the literal path `"/users/:id"`, where the extracted id is `":id"` (third
conjunct, with a handler echoing its id into the body). -/
theorem rest_resource_exact_match_routing
    (rh : cpppwn.HttpRequest → String → Except cpppwn.HandlerErr cpppwn.HttpResponse)
    (fs : cpppwn.FileSystem) :
    cpppwn.handle_client_response fs
        ((cpppwn.RESTServer.make.resource "users" { retrieve := some rh }).server_)
        { method := "POST", path := "/users" }
      = .ok (cpppwn.json_response 404
          [("error", "Not Found"), ("message", "The requested resource was not found")]) ∧
    cpppwn.handle_client_response fs
        ((cpppwn.RESTServer.make.resource "users" { retrieve := some rh }).server_)
        { method := "GET", path := "/users/42" }
      = .ok (cpppwn.json_response 404
          [("error", "Not Found"), ("message", "The requested resource was not found")]) ∧
    cpppwn.handle_client_response fs
        ((cpppwn.RESTServer.make.resource "users"
          { retrieve := some (fun _ id => .ok ((cpppwn.HttpResponse.make 200).set_body id)) }).server_)
        { method := "GET", path := "/users/:id" }
      = .ok ((cpppwn.HttpResponse.make 200).set_body ":id") :=
  ⟨rfl, rfl, rfl⟩

/-- Counterexample for C2 as stated: a destroy handler that succeeds yields
a response whose body is `"{}"` (the JSON rendering of the empty map), not
an empty body. -/
theorem destroy_response_body_counterexample :
    (cpppwn.handle_json_request none
        (cpppwn.destroy_json_handler "users" (fun _ _ => .ok ()))
        { method := "DELETE", path := "/users/42" }).status_code = 204 ∧
    (cpppwn.handle_json_request none
        (cpppwn.destroy_json_handler "users" (fun _ _ => .ok ()))
        { method := "DELETE", path := "/users/42" }).body = "\x7b\x7d" ∧
    (cpppwn.handle_json_request none
        (cpppwn.destroy_json_handler "users" (fun _ _ => .ok ()))
        { method := "DELETE", path := "/users/42" }).body ≠ "" :=
  ⟨rfl, rfl, by decide⟩

/-- C2 (amended): `resource` with a destroy handler registers
`DELETE /name/:id`; when the destroy handler returns without throwing, the
registered route handler answers `json_response(204)`: status 204
"No Content" with body `"{}"` — the serialization of the empty JSON object,
not an empty body. -/
theorem destroy_success_response (eh : Option cpppwn.ErrorHandler) (name : String)
    (h : cpppwn.HttpRequest → String → Except cpppwn.HandlerErr Unit)
    (req : cpppwn.HttpRequest)
    (hok : h req (cpppwn.extract_id_from_path req.path name) = .ok ()) :
    (cpppwn.RESTServer.make.resource name { destroy := some h }).server_.routes_.find?
        ("DELETE" ++ " " ++ ("/" ++ name ++ "/:id"))
      = some (cpppwn.wrap_json cpppwn.RESTServer.make.error_handler_
          (cpppwn.destroy_json_handler name h)) ∧
    cpppwn.destroy_route_handler eh name h req
      = .ok (cpppwn.json_response 204 cpppwn.json_response_default_data) ∧
    (cpppwn.json_response 204 cpppwn.json_response_default_data).status_code = 204 ∧
    (cpppwn.json_response 204 cpppwn.json_response_default_data).status_message = "No Content" ∧
    (cpppwn.json_response 204 cpppwn.json_response_default_data).body = "\x7b\x7d" := by
  refine ⟨?_, ?_, rfl, rfl, rfl⟩
  · exact Smap.find?_insert_self _ _ _
  · simp [cpppwn.destroy_route_handler, cpppwn.wrap_json, cpppwn.handle_json_request,
      cpppwn.destroy_json_handler, hok]

/-- Witness for C2 (amended) at a concrete destroy handler and request. -/
theorem destroy_success_response_witness :
    ((fun (_ : cpppwn.HttpRequest) (_ : String) => (.ok () : Except cpppwn.HandlerErr Unit))
        ({ method := "DELETE", path := "/users/42" } : cpppwn.HttpRequest)
        (cpppwn.extract_id_from_path
          ({ method := "DELETE", path := "/users/42" } : cpppwn.HttpRequest).path "users")
      = .ok ()) ∧
    cpppwn.destroy_route_handler none "users" (fun _ _ => .ok ())
        { method := "DELETE", path := "/users/42" }
      = .ok (cpppwn.json_response 204 cpppwn.json_response_default_data) :=
  ⟨rfl, (destroy_success_response none "users" (fun _ _ => .ok ())
    { method := "DELETE", path := "/users/42" } rfl).2.1⟩

/-- C3: when the middleware pipeline stops (some middleware returned
`false`), the dispatched response is exactly the pipeline's response as
mutated so far, and it is the same whatever the route table holds — so no
registered route handler is ever invoked. -/
theorem middleware_stop_short_circuits (fs : cpppwn.FileSystem)
    (mws : List cpppwn.Middleware) (routes1 routes2 : Smap cpppwn.RouteHandler)
    (statics : Smap String) (req : cpppwn.HttpRequest)
    (h : (cpppwn.runMiddlewares mws req (cpppwn.HttpResponse.make 200)).1 = false) :
    cpppwn.handle_client_response fs
        { routes_ := routes1, middlewares_ := mws, static_routes_ := statics } req
      = .ok (cpppwn.runMiddlewares mws req (cpppwn.HttpResponse.make 200)).2 ∧
    cpppwn.handle_client_response fs
        { routes_ := routes1, middlewares_ := mws, static_routes_ := statics } req
      = cpppwn.handle_client_response fs
        { routes_ := routes2, middlewares_ := mws, static_routes_ := statics } req := by
  constructor
  · simp [cpppwn.handle_client_response, h]
  · simp [cpppwn.handle_client_response, h]

/-- Witness for C3: one middleware that sets status 403 and stops; the
response sent is the mutated one, identically under a populated and an
empty route table. -/
theorem middleware_stop_short_circuits_witness :
    ((cpppwn.runMiddlewares [fun _ r => (false, r.set_status 403)]
        ({ method := "GET", path := "/x" } : cpppwn.HttpRequest)
        (cpppwn.HttpResponse.make 200)).1 = false) ∧
    cpppwn.handle_client_response
        { join := fun a b => a ++ "/" ++ b, is_directory := fun _ => false,
          fs_exists := fun _ => false, is_regular_file := fun _ => false,
          read_file := fun _ => none }
        { routes_ := [("GET /x", fun _ => .ok (cpppwn.HttpResponse.make 200))],
          middlewares_ := [fun _ r => (false, r.set_status 403)], static_routes_ := [] }
        { method := "GET", path := "/x" }
      = .ok (cpppwn.runMiddlewares [fun _ r => (false, r.set_status 403)]
          ({ method := "GET", path := "/x" } : cpppwn.HttpRequest)
          (cpppwn.HttpResponse.make 200)).2 ∧
    cpppwn.handle_client_response
        { join := fun a b => a ++ "/" ++ b, is_directory := fun _ => false,
          fs_exists := fun _ => false, is_regular_file := fun _ => false,
          read_file := fun _ => none }
        { routes_ := [("GET /x", fun _ => .ok (cpppwn.HttpResponse.make 200))],
          middlewares_ := [fun _ r => (false, r.set_status 403)], static_routes_ := [] }
        { method := "GET", path := "/x" }
      = cpppwn.handle_client_response
        { join := fun a b => a ++ "/" ++ b, is_directory := fun _ => false,
          fs_exists := fun _ => false, is_regular_file := fun _ => false,
          read_file := fun _ => none }
        { routes_ := [], middlewares_ := [fun _ r => (false, r.set_status 403)],
          static_routes_ := [] }
        { method := "GET", path := "/x" } :=
  ⟨rfl,
   (middleware_stop_short_circuits
     { join := fun a b => a ++ "/" ++ b, is_directory := fun _ => false,
       fs_exists := fun _ => false, is_regular_file := fun _ => false,
       read_file := fun _ => none }
     [fun _ r => (false, r.set_status 403)]
     [("GET /x", fun _ => .ok (cpppwn.HttpResponse.make 200))] []
     [] { method := "GET", path := "/x" } rfl).1,
   (middleware_stop_short_circuits
     { join := fun a b => a ++ "/" ++ b, is_directory := fun _ => false,
       fs_exists := fun _ => false, is_regular_file := fun _ => false,
       read_file := fun _ => none }
     [fun _ r => (false, r.set_status 403)]
     [("GET /x", fun _ => .ok (cpppwn.HttpResponse.make 200))] []
     [] { method := "GET", path := "/x" } rfl).2⟩

/-- C4: when the first static route whose URL prefix matches the request
path leaves a relative remainder containing `".."`, the resolver answers
the 403 Forbidden response, and the result is identical under any two
filesystem oracles — no filesystem operation influences it. -/
theorem static_traversal_rejected (f g : cpppwn.FileSystem) (sr : Smap String)
    (req : cpppwn.HttpRequest) (pre directory : String)
    (hmatch : cpppwn.first_static_match sr req.path = some (pre, directory))
    (hdot : hasDotDot (String.mk (req.path.data.drop pre.length)) = true) :
    cpppwn.handle_static_file f sr req
      = ((cpppwn.HttpResponse.make 200).set_status 403).set_body "Forbidden" ∧
    cpppwn.handle_static_file f sr req = cpppwn.handle_static_file g sr req := by
  have key : ∀ (fs : cpppwn.FileSystem) (l : List (String × String)),
      cpppwn.first_static_match l req.path = some (pre, directory) →
      cpppwn.static_loop fs (cpppwn.HttpResponse.make 200) req.path l
        = ((cpppwn.HttpResponse.make 200).set_status 403).set_body "Forbidden" := by
    intro fs l
    induction l with
    | nil => intro hm; simp [cpppwn.first_static_match] at hm
    | cons hd tl ih =>
      obtain ⟨p0, d0⟩ := hd
      intro hm
      by_cases hp : p0.data.isPrefixOf req.path.data
      · simp [cpppwn.first_static_match, hp] at hm
        obtain ⟨hp0, hd0⟩ := hm
        subst hp0
        simp [cpppwn.static_loop, hp, hdot]
      · simp [cpppwn.first_static_match, hp] at hm
        simpa [cpppwn.static_loop, hp] using ih hm
  exact ⟨key f sr hmatch, (key f sr hmatch).trans (key g sr hmatch).symm⟩

/-- Witness for C4: `/static/../../etc/passwd` under `/static → ./public`
yields 403 under an all-absent and an all-present filesystem alike. -/
theorem static_traversal_rejected_witness :
    (cpppwn.first_static_match [("/static", "./public")] "/static/../../etc/passwd"
      = some ("/static", "./public")) ∧
    (hasDotDot (String.mk ((("/static/../../etc/passwd" : String)).data.drop
      ("/static" : String).length)) = true) ∧
    cpppwn.handle_static_file
        { join := fun a b => a ++ "/" ++ b, is_directory := fun _ => false,
          fs_exists := fun _ => false, is_regular_file := fun _ => false,
          read_file := fun _ => none }
        [("/static", "./public")] { path := "/static/../../etc/passwd" }
      = ((cpppwn.HttpResponse.make 200).set_status 403).set_body "Forbidden" ∧
    cpppwn.handle_static_file
        { join := fun a b => a ++ "/" ++ b, is_directory := fun _ => false,
          fs_exists := fun _ => false, is_regular_file := fun _ => false,
          read_file := fun _ => none }
        [("/static", "./public")] { path := "/static/../../etc/passwd" }
      = cpppwn.handle_static_file
        { join := fun a b => a ++ "/" ++ b, is_directory := fun _ => true,
          fs_exists := fun _ => true, is_regular_file := fun _ => true,
          read_file := fun _ => some "root:x:0:0" }
        [("/static", "./public")] { path := "/static/../../etc/passwd" } :=
  ⟨by rfl, by rfl,
   static_traversal_rejected
     { join := fun a b => a ++ "/" ++ b, is_directory := fun _ => false,
       fs_exists := fun _ => false, is_regular_file := fun _ => false,
       read_file := fun _ => none }
     { join := fun a b => a ++ "/" ++ b, is_directory := fun _ => true,
       fs_exists := fun _ => true, is_regular_file := fun _ => true,
       read_file := fun _ => some "root:x:0:0" }
     [("/static", "./public")] { path := "/static/../../etc/passwd" }
     "/static" "./public" (by rfl) (by rfl)⟩

/-- C5 (amended): every REST client call raises a `RESTException` carrying
exactly the response's status code, status message and body when the
response is not 2xx, and returns the response body on 2xx — except that
`get_paginated` additionally requires the optional `x-total-count` header,
when present, to parse under `std::stoi` (else the stoi failure is raised
even on a 2xx response); on success its envelope's `data` is the body. -/
theorem rest_client_error_translation :
    (∀ (client_ : HttpClient) (c : RESTClient) (method endpoint json_body : String)
        (hdrs : HttpHeaders),
      let resp := client_.request method (c.build_url endpoint)
        ((c.build_headers hdrs).insert "Content-Type" "application/json") json_body
      (resp.ok = false → c.request_json client_ method endpoint json_body hdrs
        = .error ⟨resp.status_code, resp.status_message, resp.body⟩) ∧
      (resp.ok = true → c.request_json client_ method endpoint json_body hdrs
        = .ok resp.body)) ∧
    (∀ (client_ : HttpClient) (c : RESTClient) (endpoint : String) (hdrs : HttpHeaders),
      let resp := client_.get (c.build_url endpoint) (c.build_headers hdrs)
      (resp.ok = false → RESTClient.get client_ c endpoint hdrs
        = .error ⟨resp.status_code, resp.status_message, resp.body⟩) ∧
      (resp.ok = true → RESTClient.get client_ c endpoint hdrs = .ok resp.body)) ∧
    (∀ (client_ : HttpClient) (c : RESTClient) (endpoint : String) (hdrs : HttpHeaders),
      let resp := client_.del (c.build_url endpoint) (c.build_headers hdrs)
      (resp.ok = false → RESTClient.del client_ c endpoint hdrs
        = .error ⟨resp.status_code, resp.status_message, resp.body⟩) ∧
      (resp.ok = true → RESTClient.del client_ c endpoint hdrs = .ok resp.body)) ∧
    (∀ (client_ : HttpClient) (c : RESTClient) (endpoint json_body : String)
        (hdrs : HttpHeaders),
      RESTClient.post client_ c endpoint json_body hdrs
          = c.request_json client_ "POST" endpoint json_body hdrs ∧
      RESTClient.put client_ c endpoint json_body hdrs
          = c.request_json client_ "PUT" endpoint json_body hdrs ∧
      RESTClient.patch client_ c endpoint json_body hdrs
          = c.request_json client_ "PATCH" endpoint json_body hdrs) ∧
    (∀ (client_ : HttpClient) (c : RESTClient) (endpoint : String)
        (page per_page : Int) (hdrs : HttpHeaders),
      let url := endpoint ++ (if endpoint.data.contains '?' then "&" else "?")
        ++ "page=" ++ toString page ++ "&per_page=" ++ toString per_page
      let resp := client_.get (c.build_url url) (c.build_headers hdrs)
      (resp.ok = false → c.get_paginated client_ endpoint page per_page hdrs
        = .error (.rest ⟨resp.status_code, resp.status_message, resp.body⟩)) ∧
      (resp.ok = true → resp.headers.contains "x-total-count" = false →
        c.get_paginated client_ endpoint page per_page hdrs
          = .ok { data := resp.body, page := page, per_page := per_page, total := none }) ∧
      (∀ n : Int, resp.ok = true → resp.headers.contains "x-total-count" = true →
        stoi ((resp.headers.find? "x-total-count").getD "") = .ok n →
        c.get_paginated client_ endpoint page per_page hdrs
          = .ok { data := resp.body, page := page, per_page := per_page, total := some n })) := by
  refine ⟨?_, ?_, ?_, ?_, ?_⟩
  · intro client_ c method endpoint json_body hdrs
    constructor
    · intro h; simp [RESTClient.request_json, h]
    · intro h; simp [RESTClient.request_json, h]
  · intro client_ c endpoint hdrs
    constructor
    · intro h; simp [RESTClient.get, h]
    · intro h; simp [RESTClient.get, h]
  · intro client_ c endpoint hdrs
    constructor
    · intro h; simp [RESTClient.del, h]
    · intro h; simp [RESTClient.del, h]
  · intro client_ c endpoint json_body hdrs
    exact ⟨rfl, rfl, rfl⟩
  · intro client_ c endpoint page per_page hdrs
    refine ⟨?_, ?_, ?_⟩
    · intro h
      simp only [RESTClient.get_paginated]
      rw [h]
      simp
    · intro h hct
      simp only [RESTClient.get_paginated]
      rw [h, hct]
      simp
    · intro n h hct hstoi
      simp only [RESTClient.get_paginated]
      rw [h, hct, hstoi]
      simp

/-- Witness for C5 (amended): a 404 response makes `request_json` raise the
exception with that response's data; a 200 response makes `get` return the
body. -/
theorem rest_client_error_translation_witness :
    (({ status_code := 404, status_message := "Not Found", headers := [],
        cookies := [], body := "missing" } : HttpResponse).ok = false) ∧
    RESTClient.request_json
        { request := fun _ _ _ _ =>
            { status_code := 404, status_message := "Not Found",
              headers := [], cookies := [], body := "missing" },
          get := fun _ _ => HttpResponse.make 200,
          del := fun _ _ => HttpResponse.make 200 }
        { base_url_ := "http://api.example" } "GET" "/x" "" []
      = .error ⟨404, "Not Found", "missing"⟩ ∧
    RESTClient.get
        { request := fun _ _ _ _ => HttpResponse.make 200,
          get := fun _ _ =>
            { status_code := 200, status_message := "OK",
              headers := [], cookies := [], body := "pong" },
          del := fun _ _ => HttpResponse.make 200 }
        { base_url_ := "http://api.example" } "/x" []
      = .ok "pong" :=
  ⟨rfl,
   (rest_client_error_translation.1
     { request := fun _ _ _ _ =>
         { status_code := 404, status_message := "Not Found",
           headers := [], cookies := [], body := "missing" },
       get := fun _ _ => HttpResponse.make 200,
       del := fun _ _ => HttpResponse.make 200 }
     { base_url_ := "http://api.example" } "GET" "/x" "" []).1 rfl,
   (rest_client_error_translation.2.1
     { request := fun _ _ _ _ => HttpResponse.make 200,
       get := fun _ _ =>
         { status_code := 200, status_message := "OK",
           headers := [], cookies := [], body := "pong" },
       del := fun _ _ => HttpResponse.make 200 }
     { base_url_ := "http://api.example" } "/x" []).2 rfl⟩

/-- Counterexample for C5 as stated: a 2xx response whose `x-total-count`
header does not parse as an integer makes `get_paginated` raise the
`std::stoi` failure — an exception on a status inside [200, 300). -/
theorem get_paginated_stoi_counterexample :
    RESTClient.get_paginated
      { request := fun _ _ _ _ => HttpResponse.make 200,
        get := fun _ _ =>
          { status_code := 200, status_message := "OK",
            headers := [("x-total-count", "abc")], cookies := [],
            body := "[]" },
        del := fun _ _ => HttpResponse.make 200 }
      { base_url_ := "http://api.example" } "/items" 1 20 []
      = .error (.stoiFail .invalidArgument) := by rfl

theorem splitKeep_ne_nil (delim : Char) (acc cs : List Char) :
    splitKeep delim acc cs ≠ [] := by
  induction cs generalizing acc with
  | nil => simp [splitKeep]
  | cons c tl ih =>
    by_cases hc : c = delim
    · simp [splitKeep, hc]
    · simpa [splitKeep, hc] using ih (acc ++ [c])

theorem splitKeep_getLast_ne_nil (delim : Char) (acc cs : List Char)
    (hacc : cs = [] → acc ≠ [])
    (hlast : cs.getLast? ≠ some delim) :
    (splitKeep delim acc cs).getLast? ≠ some [] := by
  induction cs generalizing acc with
  | nil =>
    simp [splitKeep]
    exact hacc rfl
  | cons c tl ih =>
    by_cases hc : c = delim
    · subst hc
      cases tl with
      | nil => simp at hlast
      | cons t ts =>
        have htl : (splitKeep c [] (t :: ts)).getLast? ≠ some [] := by
          apply ih
          · intro h; exact absurd h (by simp)
          · rw [List.getLast?_cons_cons] at hlast
            exact hlast
        have hstep : splitKeep c acc (c :: t :: ts) = acc :: splitKeep c [] (t :: ts) := by
          conv_lhs => rw [splitKeep]
          rw [if_pos rfl]
        obtain ⟨y, l', hyl⟩ := List.exists_cons_of_ne_nil (splitKeep_ne_nil c [] (t :: ts))
        rw [hstep, hyl, List.getLast?_cons_cons]
        rw [hyl] at htl
        exact htl
    · cases tl with
      | nil =>
        simp [splitKeep, hc]
      | cons t ts =>
        have := ih (acc ++ [c]) (by simp) (by rwa [List.getLast?_cons_cons] at hlast)
        simpa [splitKeep, hc] using this

/-- On a non-empty input with no trailing delimiter, the `getline` loop
splits exactly like plain delimiter splitting. -/
theorem getlineSplit_eq_splitKeep (delim : Char) (cs : List Char)
    (hne : cs ≠ []) (hlast : cs.getLast? ≠ some delim) :
    getlineSplit delim cs = splitKeep delim [] cs := by
  have hgl := splitKeep_getLast_ne_nil delim [] cs (fun h => absurd h hne) hlast
  simp [getlineSplit, hne, hgl]

/-- C8: `parse_query_string` maps `"a=1&b=2&flag"` to
`{a: "1", b: "2", flag: ""}`, and on every non-empty query with no
trailing `&` (where "pairs are split on `&`" has a single reading) it
agrees with the claim's description — split on `&`, split each pair on its
first `=`, percent-decode both sides, bare pairs map to `""` — formalized
by `spec_parse_query_string`. -/
theorem parse_query_string_spec :
    cpppwn.parse_query_string "a=1&b=2&flag" = [("a", "1"), ("b", "2"), ("flag", "")] ∧
    ∀ q : String, q.data ≠ [] → q.data.getLast? ≠ some '&' →
      cpppwn.parse_query_string q = cpppwn.spec_parse_query_string q := by
  constructor
  · rfl
  · intro q hne hlast
    unfold cpppwn.parse_query_string cpppwn.spec_parse_query_string
    rw [getlineSplit_eq_splitKeep '&' q.data hne hlast]

/-- Witness for C8 at the claim's own example string. -/
theorem parse_query_string_spec_witness :
    (("a=1&b=2&flag" : String).data ≠ []) ∧
    (("a=1&b=2&flag" : String).data.getLast? ≠ some '&') ∧
    cpppwn.parse_query_string "a=1&b=2&flag"
      = cpppwn.spec_parse_query_string "a=1&b=2&flag" :=
  ⟨by decide, by decide,
   parse_query_string_spec.2 "a=1&b=2&flag" (by decide) (by decide)⟩

/-- C10: `start()` on an already-running server fails with the runtime
error without entering the accept loop (the result is the same for every
loop behavior); `stop()` is the identity when not running, and when running
it clears the flag and closes the listener. -/
theorem start_stop_guards :
    (∀ (accept_loop : cpppwn.HttpServer → cpppwn.HttpServer) (srv : cpppwn.HttpServer),
      srv.running_ = true →
      cpppwn.HttpServer.start accept_loop srv = .error "Server is already running") ∧
    (∀ srv : cpppwn.HttpServer, srv.running_ = false → cpppwn.HttpServer.stop srv = srv) ∧
    (∀ srv : cpppwn.HttpServer, srv.running_ = true →
      (cpppwn.HttpServer.stop srv).running_ = false ∧
      (cpppwn.HttpServer.stop srv).server_closed = true) := by
  refine ⟨fun l srv h => ?_, fun srv h => ?_, fun srv h => ?_⟩ <;>
    simp [cpppwn.HttpServer.start, cpppwn.HttpServer.stop, h]

/-- Witness for C10 at concrete server states. -/
theorem start_stop_guards_witness :
    cpppwn.HttpServer.start id ({ running_ := true } : cpppwn.HttpServer)
      = .error "Server is already running" ∧
    cpppwn.HttpServer.stop ({} : cpppwn.HttpServer) = {} ∧
    (cpppwn.HttpServer.stop ({ running_ := true } : cpppwn.HttpServer)).running_ = false :=
  ⟨start_stop_guards.1 id { running_ := true } rfl,
   start_stop_guards.2.1 {} rfl,
   (start_stop_guards.2.2 { running_ := true } rfl).1⟩
